import Mathlib

/-!
Verification development for the AI-Lead-Automator repository.

Shallow embedding of the core data model and operations:
- `InputValidator` (src/src/security/validators.py)
- `Lead` (src/src/models/lead.py)
- `Document` (src/src/models/document.py)
- `DataManager` (src/src/services/data_manager.py)
- `MockDataGenerator` (src/src/api/mock_data.py)
- `FirecrawlClient.scrape_url` mock path (src/src/api/firecrawl.py)
- `KnowledgeBaseService` (src/src/services/knowledge_base.py)
- `LeadAnalyzer` (src/src/services/lead_analyzer.py)

Python strings are Lean `String`s, Python ints are Lean `Int`/`Nat`,
Python dicts with heterogeneous values are association lists over `JVal`,
fallible constructors return `Except String`. External collaborators
(chunk splitter, vector similarity search, md5 hash, clock) are passed in
as explicit function parameters, since the Python code treats them as
opaque effectful dependencies.
-/

/-- A JSON-like scalar value, used to model heterogeneous Python dict values
(e.g. page metadata holding both strings and the integer `statusCode`). -/
inductive JVal where
  | s (v : String)
  | n (v : Int)
deriving DecidableEq, Repr

namespace InputValidator

/-- The null character `\x00` removed by `sanitize_text`. -/
def nullChar : Char := Char.ofNat 0

/-- Python `html.escape(text, quote=True)` acts independently on each
character: `&` → `&amp;`, `<` → `&lt;`, `>` → `&gt;`, `"` → `&quot;`,
the apostrophe → `&#x27;`; every other character is kept. -/
def escapeChar (c : Char) : List Char :=
  if c = '&' then "&amp;".toList
  else if c = '<' then "&lt;".toList
  else if c = '>' then "&gt;".toList
  else if c = '"' then "&quot;".toList
  else if c = Char.ofNat 39 then "&#x27;".toList
  else [c]

/-- Model of `InputValidator.sanitize_text` (validators.py:144-172): empty text maps
to `""`; otherwise HTML-escape, drop null bytes, and truncate to
`max_length` when a nonzero `max_length` is given and the text is longer
(Python `if max_length and len(text) > max_length`). -/
def sanitize_text (text : String) (maxLength : Option Nat) : String :=
  if text = "" then ""
  else
    let escaped := text.toList.flatMap escapeChar
    let noNull := escaped.filter (fun c => c ≠ nullChar)
    let truncated :=
      match maxLength with
      | some m => if m ≠ 0 && noNull.length > m then noNull.take m else noNull
      | none => noNull
    String.mk truncated

/-- Model of `InputValidator.validate_score` (validators.py:196-205): an integer score
is valid exactly when `0 <= score <= 100`. -/
def validate_score (score : Int) : Bool × String :=
  if ¬ (0 ≤ score ∧ score ≤ 100) then (false, "Score must be between 0 and 100")
  else (true, "Valid")

end InputValidator

/-- Raw (pre-validation) Lead field values, the image of `Lead.to_dict` and
the argument shape of `Lead.from_dict` (lead.py:92-113). -/
structure RawLead where
  url : String
  company_name : String
  lead_score : Int
  industry : String
  score_rationale : String
  key_insights : String
  fit_analysis : String
  personalized_email : String
  sms_draft : String
  recommended_action : String
  scraped_content : String
  metadata : List (String × JVal)
  timestamp : String
  id : Option Int
deriving DecidableEq, Repr

/-- A validated `Lead` (lead.py:17-61): same fields as `RawLead`, but only
constructible through `Lead.make`, which runs `__post_init__`. -/
structure Lead where
  url : String
  company_name : String
  lead_score : Int
  industry : String
  score_rationale : String
  key_insights : String
  fit_analysis : String
  personalized_email : String
  sms_draft : String
  recommended_action : String
  scraped_content : String
  metadata : List (String × JVal)
  timestamp : String
  id : Option Int
deriving DecidableEq, Repr

namespace Lead

/-- The valid `recommended_action` values (lead.py:58). -/
def validActions : List String := ["Qualified", "Disqualified", "Further Research"]

/-- Model of `Lead.__post_init__` (lead.py:41-61): an invalid URL only logs a warning;
an invalid score raises `ValueError`; `company_name` and `industry` are
sanitized with max lengths 200 and 100; an unknown `recommended_action` is
coerced to `"Further Research"`. -/
def make (r : RawLead) : Except String Lead :=
  let scoreCheck := InputValidator.validate_score r.lead_score
  if ¬ scoreCheck.1 then .error ("Invalid lead score: " ++ scoreCheck.2)
  else
    .ok {
      url := r.url
      company_name := InputValidator.sanitize_text r.company_name (some 200)
      lead_score := r.lead_score
      industry := InputValidator.sanitize_text r.industry (some 100)
      score_rationale := r.score_rationale
      key_insights := r.key_insights
      fit_analysis := r.fit_analysis
      personalized_email := r.personalized_email
      sms_draft := r.sms_draft
      recommended_action :=
        if r.recommended_action ∈ validActions then r.recommended_action
        else "Further Research"
      scraped_content := r.scraped_content
      metadata := r.metadata
      timestamp := r.timestamp
      id := r.id
    }

/-- Model of `Lead.to_dict` (lead.py:92-94): `asdict` listing every field. -/
def to_dict (l : Lead) : RawLead :=
  {
    url := l.url
    company_name := l.company_name
    lead_score := l.lead_score
    industry := l.industry
    score_rationale := l.score_rationale
    key_insights := l.key_insights
    fit_analysis := l.fit_analysis
    personalized_email := l.personalized_email
    sms_draft := l.sms_draft
    recommended_action := l.recommended_action
    scraped_content := l.scraped_content
    metadata := l.metadata
    timestamp := l.timestamp
    id := l.id
  }

/-- Model of `Lead.from_dict` (lead.py:100-113): filters to the known fields (all of
`RawLead`'s fields are known fields) and re-runs construction, i.e.
`__post_init__`. -/
def from_dict (r : RawLead) : Except String Lead := make r

end Lead

/-- Raw (pre-validation) Document field values, the image of
`Document.to_dict` and the argument shape of `Document.from_dict`
(document.py:54-61). `avg_chunk_size` and `embedding_cost_estimate` are
Python floats, modelled as rationals. -/
structure RawDocument where
  filename : String
  content : String
  doc_type : String
  file_size : Nat
  num_chunks : Nat
  upload_date : String
  file_path : Option String
  metadata : List (String × JVal)
  id : Option String
  char_count : Nat
  token_count : Nat
  avg_chunk_size : ℚ
  last_modified : Option String
  embedding_cost_estimate : ℚ
  summary : String
deriving DecidableEq, Repr

/-- A validated `Document` (document.py:16-52), constructible through
`Document.make`, which runs `__post_init__`. -/
structure Document where
  filename : String
  content : String
  doc_type : String
  file_size : Nat
  num_chunks : Nat
  upload_date : String
  file_path : Option String
  metadata : List (String × JVal)
  id : Option String
  char_count : Nat
  token_count : Nat
  avg_chunk_size : ℚ
  last_modified : Option String
  embedding_cost_estimate : ℚ
  summary : String
deriving DecidableEq, Repr

namespace Document

/-- Model of `Document.__post_init__` (document.py:41-52): an empty filename raises
`ValueError`; empty content and unknown document types only log warnings.
No field is mutated. -/
def make (r : RawDocument) : Except String Document :=
  if r.filename = "" then .error "Document filename cannot be empty"
  else
    .ok {
      filename := r.filename
      content := r.content
      doc_type := r.doc_type
      file_size := r.file_size
      num_chunks := r.num_chunks
      upload_date := r.upload_date
      file_path := r.file_path
      metadata := r.metadata
      id := r.id
      char_count := r.char_count
      token_count := r.token_count
      avg_chunk_size := r.avg_chunk_size
      last_modified := r.last_modified
      embedding_cost_estimate := r.embedding_cost_estimate
      summary := r.summary
    }

/-- Model of `Document.to_dict` (document.py:54-56): `asdict` listing every field. -/
def to_dict (d : Document) : RawDocument :=
  {
    filename := d.filename
    content := d.content
    doc_type := d.doc_type
    file_size := d.file_size
    num_chunks := d.num_chunks
    upload_date := d.upload_date
    file_path := d.file_path
    metadata := d.metadata
    id := d.id
    char_count := d.char_count
    token_count := d.token_count
    avg_chunk_size := d.avg_chunk_size
    last_modified := d.last_modified
    embedding_cost_estimate := d.embedding_cost_estimate
    summary := d.summary
  }

/-- Model of `Document.estimate_tokens` (document.py:100-103): `int(len(text)/4)`. -/
def estimate_tokens (text : String) : Nat := text.length / 4

/-- Model of `Document.from_dict` (document.py:58-61): `cls(**data)`, i.e. re-runs
`__post_init__`. -/
def from_dict (r : RawDocument) : Except String Document := make r

end Document

/-- A concrete sanitization-fixed Lead used in several witnesses. -/
def plainLead : Lead :=
  {
    url := "https://acme.com"
    company_name := "Acme"
    lead_score := 80
    industry := "SaaS"
    score_rationale := "r"
    key_insights := "k"
    fit_analysis := "f"
    personalized_email := "e"
    sms_draft := "s"
    recommended_action := "Qualified"
    scraped_content := "c"
    metadata := []
    timestamp := "2024-01-01T00:00:00"
    id := some 1
  }

/-- A concrete Document used in witnesses. -/
def plainDocument : Document :=
  {
    filename := "notes.txt"
    content := "hello"
    doc_type := "txt"
    file_size := 5
    num_chunks := 1
    upload_date := "2024-01-01T00:00:00"
    file_path := some "data/documents/d1_notes.txt"
    metadata := []
    id := some "d1"
    char_count := 5
    token_count := 1
    avg_chunk_size := 5
    last_modified := some "2024-01-01T00:00:00"
    embedding_cost_estimate := 0
    summary := "hello"
  }

namespace DataManager

/-- The raw field data of `DataManager._get_test_leads`
(data_manager.py:47-177). `ts h` stands for
`(datetime.now() - timedelta(hours=h)).isoformat()`; the clock is an
external dependency, passed in explicitly. Fields not listed in the source
take the `Lead` dataclass defaults (empty `scraped_content`, empty
metadata). -/
def test_leads_data (ts : Nat → String) : List RawLead :=
  [{ url := "https://techflow-solutions.com"
     company_name := "TechFlow Solutions"
     lead_score := 85
     industry := "B2B SaaS"
     score_rationale := "High growth potential with strong product-market fit in automation space"
     key_insights := "Recently raised Series B funding, expanding team by 40%"
     fit_analysis := "Perfect match for our automation solutions. Strong technical team with clear scaling needs."
     personalized_email := "Subject: Partnership Opportunity - Automating Your Workflow\n\nHi [Name],\n\nI noticed TechFlow Solutions has been expanding rapidly in the B2B SaaS automation space. Your recent Series B funding and 40% team growth shows impressive momentum.\n\nWe help companies like yours streamline their operations through our automation platform. Given your focus on workflow efficiency, I believe there could be strong synergies.\n\nWould you be open to a brief conversation about how we might support your continued growth?\n\nBest regards,\n[Your Name]"
     sms_draft := "Hi [Name], congrats on your Series B! Would love to chat about automation solutions for TechFlow. 15 min call this week?"
     recommended_action := "Qualified"
     scraped_content := ""
     metadata := []
     timestamp := ts 2
     id := some 9001 },
   { url := "https://datasync-pro.com"
     company_name := "DataSync Pro"
     lead_score := 72
     industry := "Data Analytics"
     score_rationale := "Good fit for enterprise clients, proven track record"
     key_insights := "Strong technical team, looking to expand market presence"
     fit_analysis := "Solid prospect with growth potential. Could benefit from our data integration solutions."
     personalized_email := "Subject: Data Integration Solutions for DataSync Pro\n\nHello [Name],\n\nI came across DataSync Pro and was impressed by your real-time data integration platform. Your strong technical foundation positions you well in the growing data analytics market.\n\nWe work with similar companies to optimize their data workflows and scale their operations. I believe there might be valuable opportunities for collaboration.\n\nWould you be interested in exploring how we could support your market expansion goals?\n\nBest,\n[Your Name]"
     sms_draft := "Hi [Name], impressed by DataSync Pro! Quick question about your data integration needs - 10 min call?"
     recommended_action := "Further Research"
     scraped_content := ""
     metadata := []
     timestamp := ts 5
     id := some 9002 },
   { url := "https://customerfirst-ai.com"
     company_name := "CustomerFirst AI"
     lead_score := 91
     industry := "AI/ML"
     score_rationale := "Perfect ICP match with high growth trajectory and recent funding"
     key_insights := "AI-powered customer success platform, $10M ARR, Series A funded"
     fit_analysis := "Ideal customer profile match. High-growth AI company with proven revenue and funding."
     personalized_email := "Subject: Strategic Partnership - AI-Powered Customer Success\n\nDear [Name],\n\nCustomerFirst AI caught my attention with your impressive $10M ARR and Series A funding. Your AI-powered customer success platform aligns perfectly with current market trends.\n\nWe specialize in helping AI companies scale their operations and optimize customer engagement. Given your rapid growth and innovative approach, I see significant potential for collaboration.\n\nI'd love to discuss how we can support your continued success. Are you available for a brief call this week?\n\nBest regards,\n[Your Name]"
     sms_draft := "Hi [Name], love what CustomerFirst AI is doing! Congrats on $10M ARR. Chat about scaling opportunities?"
     recommended_action := "Qualified"
     scraped_content := ""
     metadata := []
     timestamp := ts 8
     id := some 9003 },
   { url := "https://securevault-systems.com"
     company_name := "SecureVault Systems"
     lead_score := 68
     industry := "Cybersecurity"
     score_rationale := "Enterprise focus but smaller team, moderate growth potential"
     key_insights := "Specializes in compliance and security solutions for financial sector"
     fit_analysis := "Decent fit but may need more research to understand specific needs and budget."
     personalized_email := "Subject: Security & Compliance Solutions\n\nHi [Name],\n\nI came across SecureVault Systems and your focus on enterprise security and compliance solutions, particularly for the financial sector.\n\nWe work with security-focused companies to enhance their operational efficiency while maintaining the highest security standards.\n\nWould you be interested in a brief discussion about potential synergies?\n\nBest,\n[Your Name]"
     sms_draft := "Hi [Name], interested in SecureVault's compliance focus. Quick chat about security solutions?"
     recommended_action := "Further Research"
     scraped_content := ""
     metadata := []
     timestamp := ts 12
     id := some 9004 },
   { url := "https://growthmetrics.com"
     company_name := "GrowthMetrics"
     lead_score := 79
     industry := "Marketing Technology"
     score_rationale := "Growing martech company with good market position"
     key_insights := "Marketing analytics platform with focus on attribution and ROI tracking"
     fit_analysis := "Strong potential customer with clear value proposition and growing customer base."
     personalized_email := "Subject: Marketing Analytics & Growth Optimization\n\nHello [Name],\n\nGrowthMetrics has impressed me with your marketing analytics and attribution platform. The focus on ROI tracking is exactly what many growing companies need.\n\nWe help martech companies like yours scale their operations and optimize their growth strategies.\n\nI'd love to explore potential partnership opportunities. Are you available for a quick call?\n\nBest regards,\n[Your Name]"
     sms_draft := "Hi [Name], love GrowthMetrics' attribution focus! Chat about growth opportunities?"
     recommended_action := "Qualified"
     scraped_content := ""
     metadata := []
     timestamp := ts 24
     id := some 9005 }]

/-- Model of `DataManager._get_test_leads` (data_manager.py:47-177):
`[Lead(**data) for data in test_leads_data]` — each entry goes through the
Lead constructor, so a validation error would propagate. -/
def get_test_leads (ts : Nat → String) : Except String (List Lead) :=
  (test_leads_data ts).mapM Lead.make

/-- Model of `DataManager.load_all` (data_manager.py:202-264), with the file read and
JSON parse abstracted into `parsed` (`none` models a `json.JSONDecodeError`
on a corrupted file) and test mode (`_is_test_mode`: no valid Firecrawl or
AI key configured) passed as a Boolean. On a decode error or any other
exception: test data when in test mode, else the empty list. On a
successful parse of an empty list while in test mode: test data. -/
def load_all (parsed : Option (List RawLead)) (testMode : Bool)
    (ts : Nat → String) : Except String (List Lead) :=
  match parsed with
  | none => if testMode then get_test_leads ts else .ok []
  | some items =>
    match items.mapM Lead.from_dict with
    | .error _ => if testMode then get_test_leads ts else .ok []
    | .ok leads =>
      if leads.isEmpty && testMode then get_test_leads ts else .ok leads

/-- Model of `DataManager.add_lead` (data_manager.py:298-320), acting on the loaded
lead list: assigns `id = len(leads) + 1` and a fresh timestamp, appends,
and saves the whole collection. -/
def add_lead (leads : List Lead) (lead : Lead) (now : String) :
    Int × List Lead :=
  let newId : Int := (leads.length : Int) + 1
  (newId, leads ++ [{ lead with id := some newId, timestamp := now }])

end DataManager

/-- The spec's id-assignment rule, modelled from the spec sentence
"assigns the next integer id (max existing id + 1, or 1 if empty)", for
comparison against `DataManager.add_lead`. -/
def specNextId (leads : List Lead) : Int :=
  if leads = [] then 1
  else ((leads.filterMap Lead.id).foldr max 0) + 1

/-- A store whose ids are 1 and 3 (as arises after deleting the lead with
id 2 — `delete_lead` removes records without renumbering). -/
def storeWithGap : List Lead := [plainLead, { plainLead with id := some 3 }]

/-- C2 counterexample: on the concrete store with existing ids {1, 3},
`add_lead` assigns id `len + 1 = 3`, which collides with the existing id 3
and differs from the spec's `max + 1 = 4`. -/
theorem add_lead_id_counterexample :
    (DataManager.add_lead storeWithGap plainLead "t").1 = 3 ∧
      (storeWithGap.map Lead.id).contains (some 3) = true ∧
      specNextId storeWithGap = 4 := by
  refine ⟨rfl, by decide, by decide⟩

/-- C2 amended: `add_lead` assigns the id `count of loaded leads + 1`
(which is 1 on an empty store), appends the lead with that id and a fresh
timestamp, and the assigned id avoids collision only under the additional
assumption that every existing id is at most the count — e.g. when ids are
exactly 1..count; after deletions this assumption can fail and the id can
collide. -/
theorem add_lead_amended (leads : List Lead) (lead : Lead) (now : String)
    (hids : ∀ l ∈ leads, ∀ i : Int, l.id = some i → i < (leads.length : Int) + 1) :
    (DataManager.add_lead leads lead now).1 = (leads.length : Int) + 1 ∧
      (DataManager.add_lead leads lead now).2 =
        leads ++ [{ lead with id := some ((leads.length : Int) + 1), timestamp := now }] ∧
      ∀ l ∈ leads, l.id ≠ some ((leads.length : Int) + 1) := by
  refine ⟨rfl, rfl, ?_⟩
  intro l hl heq
  have := hids l hl _ heq
  omega

/-- Witness for `add_lead_amended` on the one-element store `[plainLead]`. -/
theorem add_lead_amended_witness :
    (DataManager.add_lead [plainLead] plainLead "t").1 = (([plainLead] : List Lead).length : Int) + 1 ∧
      (DataManager.add_lead [plainLead] plainLead "t").2 =
        [plainLead] ++ [{ plainLead with id := some ((([plainLead] : List Lead).length : Int) + 1), timestamp := "t" }] ∧
      ∀ l ∈ ([plainLead] : List Lead), l.id ≠ some ((([plainLead] : List Lead).length : Int) + 1) :=
  add_lead_amended [plainLead] plainLead "t" (by decide)

/-- C4 counterexample: with a corrupted backing file (JSON decode failure)
and test mode active (no valid API credentials), `load_all` returns the
five built-in test leads — not the empty collection the claim demands
regardless of credentials. -/
theorem load_all_corrupt_counterexample :
    (DataManager.load_all none true (fun _ => "t")).toOption.map List.length = some 5 ∧
      some (5 : Nat) ≠ some (0 : Nat) := by
  exact ⟨rfl, by decide⟩

/-- C4 amended: on a backing file whose contents fail to parse as JSON,
`load_all` propagates no parse error; it returns the empty collection when
valid API credentials are configured (non-test mode), but in test mode it
returns the five built-in test leads instead. -/
theorem load_all_corrupt_amended (ts : Nat → String) :
    DataManager.load_all none false ts = .ok [] ∧
      (DataManager.load_all none true ts).isOk = true ∧
      (DataManager.load_all none true ts).toOption.map List.length = some 5 := by
  exact ⟨rfl, rfl, rfl⟩

/-- One vector-index entry: a chunk's text plus the metadata attached in
`add_document` (knowledge_base.py:182-193). -/
structure ChunkEntry where
  page_content : String
  source : String
  doc_id : String
  chunk_index : Nat
  doc_type : String
deriving DecidableEq, Repr

/-- The persistent state owned by the knowledge base: the vector index
contents and the document metadata catalog
(`documents_metadata.json`). -/
structure KBState where
  vectors : List ChunkEntry
  catalog : List Document
deriving DecidableEq, Repr

/-- The effectful ingestion steps of `add_document` that can raise after
text extraction succeeded: the original-file copy (shutil.copy2), the text
split, the vector-store insertion, the metric computation
(`file_path.stat()` for mtime/size), and the catalog metadata write. -/
inductive IngestStep where
  | copyFile
  | chunkSplit
  | insertVectors
  | metrics
  | catalogWrite
deriving DecidableEq, Repr

/-- Python `round(q, n)` modelled over rationals (round-half-up in place of
Python's round-half-even; the claims never depend on the tie case). -/
def pyRound (q : ℚ) (ndigits : Nat) : ℚ :=
  ((round (q * ((10 : ℚ) ^ ndigits)) : ℤ) : ℚ) / ((10 : ℚ) ^ ndigits)

namespace KnowledgeBaseService

/-- File-extension dispatch of `add_document` (knowledge_base.py:153-164). -/
def docTypeOf (ext : String) : Option String :=
  if ext = ".pdf" then some "pdf"
  else if ext = ".docx" then some "docx"
  else if ext = ".txt" then some "txt"
  else none

/-- The LangChain documents built from the chunks
(knowledge_base.py:182-193): each chunk is tagged with source filename,
document id, ordinal chunk index and document type. -/
def chunk_entries (chunks : List String) (docId filename docType : String) :
    List ChunkEntry :=
  chunks.enum.map (fun p =>
    { page_content := p.2, source := filename, doc_id := docId,
      chunk_index := p.1, doc_type := docType })

/-- Model of `KnowledgeBaseService.add_document` (knowledge_base.py:138-241).
The chunker is the external `text_splitter.split_text`, passed as `split`;
`text` is the already-extracted text (the claims concern runs where text
extraction succeeded); `docId` models the fresh `uuid.uuid4()`; `mtime`
and `now` model the file-stat mtime and the clock. `failAt` is the failure
oracle: `some step` means that step raises, and the surrounding
`except Exception` turns the raise into a `(False, message, None)` return —
with no rollback of vectors already inserted. A failing catalog write is
special: `_save_all_documents_metadata` swallows its own exception, so
`add_document` still reports success. -/
def add_document (split : String → List String) (st : KBState)
    (ext text docId filename : String) (fileSize : Nat) (mtime now : String)
    (failAt : Option IngestStep) : (Bool × String × Option Document) × KBState :=
  match docTypeOf ext with
  | none => ((false, "Unsupported file type: " ++ ext, none), st)
  | some docType =>
    if text = "" ∨ text.length < 50 then
      ((false, "Document appears to be empty or too short", none), st)
    else if failAt = some .copyFile then
      ((false, "Error adding document: file copy failed", none), st)
    else
      let chunks := split text
      if failAt = some .chunkSplit then
        ((false, "Error adding document: text split failed", none), st)
      else if failAt = some .insertVectors then
        ((false, "Error adding document: vector store insertion failed", none), st)
      else
        let st1 : KBState :=
          { st with vectors := st.vectors ++ chunk_entries chunks docId filename docType }
        if failAt = some .metrics then
          ((false, "Error adding document: stat failed", none), st1)
        else
          let charCount := text.length
          let tokenCount := Document.estimate_tokens text
          let avgChunk : ℚ :=
            if chunks.length ≠ 0 then pyRound ((charCount : ℚ) / (chunks.length : ℚ)) 1 else 0
          let cost : ℚ := pyRound ((tokenCount : ℚ) / 1000 * (1 / 10000)) 6
          let summary0 := ((text.take 200).replace "\n" " ").trim
          let summary := if text.length > 200 then summary0 ++ "..." else summary0
          let preview := if text.length > 1000 then text.take 1000 ++ "..." else text
          match Document.make
            { filename := filename
              content := preview
              doc_type := docType
              file_size := fileSize
              num_chunks := chunks.length
              upload_date := now
              file_path := some ("data/documents/" ++ docId ++ "_" ++ filename)
              metadata := []
              id := some docId
              char_count := charCount
              token_count := tokenCount
              avg_chunk_size := avgChunk
              last_modified := some mtime
              embedding_cost_estimate := cost
              summary := summary } with
          | .error e => ((false, "Error adding document: " ++ e, none), st1)
          | .ok doc =>
            if failAt = some .catalogWrite then
              ((true, "Document '" ++ filename ++ "' successfully added to knowledge base",
                some doc), st1)
            else
              ((true, "Document '" ++ filename ++ "' successfully added to knowledge base",
                some doc), { st1 with catalog := st1.catalog ++ [doc] })

/-- One formatted search result (knowledge_base.py:263-269). -/
structure SearchHit where
  content : String
  score : ℚ
  metadata : List (String × JVal)
deriving DecidableEq, Repr

/-- Model of `KnowledgeBaseService.search` (knowledge_base.py:243-276). The vector
store's `similarity_search_with_score` is the external `simSearch`
(`none` models a raised exception, caught and degraded to `[]`). An empty
index returns `[]` before any search call. -/
def search (simSearch : String → Nat → Option (List (String × ℚ × List (String × JVal))))
    (st : KBState) (query : String) (k : Nat) : List SearchHit :=
  if st.vectors.length = 0 then []
  else
    match simSearch query k with
    | none => []
    | some results =>
      results.map (fun r => { content := r.1, score := r.2.1, metadata := r.2.2 })

/-- The `source` metadata lookup in `get_context_for_prompt`
(knowledge_base.py:296): `result['metadata'].get('source', 'Unknown')`. -/
def sourceName (md : List (String × JVal)) : String :=
  match md.lookup "source" with
  | some (.s v) => v
  | some (.n v) => toString v
  | none => "Unknown"

/-- Model of `KnowledgeBaseService.get_context_for_prompt`
(knowledge_base.py:278-301): empty results give `""`; otherwise chunks are
labeled `[Source i: filename]` and joined by blank lines. -/
def get_context_for_prompt
    (simSearch : String → Nat → Option (List (String × ℚ × List (String × JVal))))
    (st : KBState) (query : String) (maxChunks : Nat) : String :=
  let results := search simSearch st query maxChunks
  if results = [] then ""
  else
    let parts := results.enum.map (fun p =>
      "[Source " ++ toString (p.1 + 1) ++ ": " ++ sourceName p.2.metadata ++ "]\n" ++ p.2.content)
    String.intercalate "\n\n" parts

end KnowledgeBaseService

/-- C9: on a knowledge base whose vector index is empty, `search` returns
the empty list (before any similarity call, whatever the vector store
would answer) and `get_context_for_prompt` returns the empty string, for
every query. -/
theorem empty_kb_search_and_context
    (simSearch : String → Nat → Option (List (String × ℚ × List (String × JVal))))
    (st : KBState) (q : String) (k n : Nat) (h : st.vectors = []) :
    KnowledgeBaseService.search simSearch st q k = [] ∧
      KnowledgeBaseService.get_context_for_prompt simSearch st q n = "" := by
  have hlen : st.vectors.length = 0 := by simp [h]
  constructor
  · unfold KnowledgeBaseService.search
    simp [hlen]
  · unfold KnowledgeBaseService.get_context_for_prompt KnowledgeBaseService.search
    simp [hlen]

/-- Witness for `empty_kb_search_and_context`: the empty knowledge base
with a similarity oracle that would return a hit if it were consulted. -/
theorem empty_kb_search_and_context_witness :
    KnowledgeBaseService.search (fun _ _ => some [("hit", 0, [])]) ⟨[], []⟩ "any query" 5 = [] ∧
      KnowledgeBaseService.get_context_for_prompt (fun _ _ => some [("hit", 0, [])])
        ⟨[], []⟩ "any query" 3 = "" :=
  empty_kb_search_and_context (fun _ _ => some [("hit", 0, [])]) ⟨[], []⟩ "any query" 5 3 rfl

/-- Helper: whenever some ingestion step fails, the catalog is unchanged —
either the failure happens before `_save_document_metadata`, or the
catalog write itself fails and is swallowed. -/
theorem add_document_catalog_stable (split : String → List String) (st : KBState)
    (ext text docId filename : String) (fileSize : Nat) (mtime now : String)
    (failAt : Option IngestStep) (hfail : failAt ≠ none) :
    (KnowledgeBaseService.add_document split st ext text docId filename fileSize
      mtime now failAt).2.catalog = st.catalog := by
  unfold KnowledgeBaseService.add_document
  rcases hdt : KnowledgeBaseService.docTypeOf ext with _ | dt <;> simp only [hdt] <;> try rfl
  split_ifs <;> try rfl
  all_goals try (split <;> (try split_ifs) <;> try rfl)
  all_goals
    (rcases failAt with _ | step <;>
      first
        | exact absurd rfl hfail
        | (cases step <;> simp_all))

/-- Helper: a failure at the file copy, the text split, or the vector
insertion leaves the whole knowledge-base state unchanged. -/
theorem add_document_early_fail (split : String → List String) (st : KBState)
    (ext text docId filename : String) (fileSize : Nat) (mtime now : String)
    (failAt : Option IngestStep)
    (h : failAt = some .copyFile ∨ failAt = some .chunkSplit ∨ failAt = some .insertVectors) :
    (KnowledgeBaseService.add_document split st ext text docId filename fileSize
      mtime now failAt).2 = st := by
  unfold KnowledgeBaseService.add_document
  rcases hdt : KnowledgeBaseService.docTypeOf ext with _ | dt <;> simp only [hdt] <;> try rfl
  split_ifs <;> try rfl
  all_goals (rcases h with h | h | h <;> subst h <;> simp_all)

/-- Helper: extracted text shorter than 50 characters fails before any
state change. -/
theorem add_document_short_text (split : String → List String) (st : KBState)
    (ext text docId filename : String) (fileSize : Nat) (mtime now : String)
    (failAt : Option IngestStep) (h : text.length < 50) :
    (KnowledgeBaseService.add_document split st ext text docId filename fileSize
      mtime now failAt).2 = st ∧
      (KnowledgeBaseService.add_document split st ext text docId filename fileSize
        mtime now failAt).1.1 = false := by
  unfold KnowledgeBaseService.add_document
  rcases hdt : KnowledgeBaseService.docTypeOf ext with _ | dt <;> simp only [hdt] <;>
    try exact ⟨trivial, trivial⟩
  rw [if_pos (Or.inr h)]
  exact ⟨rfl, rfl⟩

/-- Helper: a failure at metric computation or at the catalog write happens
after the vector insertion, so the chunks are in the index when the call
returns. -/
theorem add_document_vectors_inserted (split : String → List String) (st : KBState)
    (ext text docId filename dt : String) (fileSize : Nat) (mtime now : String)
    (failAt : Option IngestStep)
    (hm : failAt = some .metrics ∨ failAt = some .catalogWrite)
    (hdt : KnowledgeBaseService.docTypeOf ext = some dt)
    (htxt : ¬(text = "" ∨ text.length < 50)) :
    (KnowledgeBaseService.add_document split st ext text docId filename fileSize
      mtime now failAt).2.vectors =
      st.vectors ++ KnowledgeBaseService.chunk_entries (split text) docId filename dt := by
  unfold KnowledgeBaseService.add_document
  simp only [hdt]
  rcases hm with hm | hm <;> subst hm <;> split_ifs <;>
    first
      | rfl
      | (split <;> (try split_ifs) <;> rfl)
      | simp_all

/-- C1 amended: when any ingestion step after text extraction fails, no
catalog record for the attempt is written, and a failure before the vector
insertion (file copy, chunking, insertion itself) leaves the vector index
untouched — as does ingesting text of fewer than 50 characters. But a
failure after the insertion (metric computation or catalog write) leaves
the inserted vectors in the index: `add_document` performs no
delete-by-id-filter rollback, so ingestion is not atomic. -/
theorem ingest_failure_amended (split : String → List String) (st : KBState)
    (ext text docId filename : String) (fileSize : Nat) (mtime now : String)
    (failAt : Option IngestStep) (hfail : failAt ≠ none) :
    (KnowledgeBaseService.add_document split st ext text docId filename fileSize
      mtime now failAt).2.catalog = st.catalog ∧
      ((failAt = some .copyFile ∨ failAt = some .chunkSplit ∨ failAt = some .insertVectors) →
        (KnowledgeBaseService.add_document split st ext text docId filename fileSize
          mtime now failAt).2 = st) ∧
      (text.length < 50 →
        (KnowledgeBaseService.add_document split st ext text docId filename fileSize
          mtime now failAt).2 = st) ∧
      (∀ dt : String, (failAt = some .metrics ∨ failAt = some .catalogWrite) →
        KnowledgeBaseService.docTypeOf ext = some dt →
        ¬(text = "" ∨ text.length < 50) →
        (KnowledgeBaseService.add_document split st ext text docId filename fileSize
          mtime now failAt).2.vectors =
          st.vectors ++ KnowledgeBaseService.chunk_entries (split text) docId filename dt) :=
  ⟨add_document_catalog_stable split st ext text docId filename fileSize mtime now failAt hfail,
   fun h => add_document_early_fail split st ext text docId filename fileSize mtime now failAt h,
   fun h => (add_document_short_text split st ext text docId filename fileSize mtime now failAt h).1,
   fun dt hm hdt htxt => add_document_vectors_inserted split st ext text docId filename dt
     fileSize mtime now failAt hm hdt htxt⟩

/-- A piece of extracted text longer than the 50-character minimum. -/
def kbSampleText : String :=
  "This knowledge base document text is long enough to pass the fifty character minimum."

/-- C1 counterexample: with a fresh empty knowledge base, ingesting an 85+
character .txt whose metric-computation step (`file_path.stat()`) fails
ends with the call reporting failure, the catalog unchanged — and the
chunk vectors still in the index: nothing deletes them by id filter, so
the vector index is NOT left as it was before the call. -/
theorem ingest_no_rollback_counterexample :
    (KnowledgeBaseService.add_document (fun t => [t]) ⟨[], []⟩ ".txt" kbSampleText
      "d1" "f.txt" 85 "m" "n" (some .metrics)).1.1 = false ∧
      (KnowledgeBaseService.add_document (fun t => [t]) ⟨[], []⟩ ".txt" kbSampleText
        "d1" "f.txt" 85 "m" "n" (some .metrics)).2.vectors ≠ [] ∧
      (KnowledgeBaseService.add_document (fun t => [t]) ⟨[], []⟩ ".txt" kbSampleText
        "d1" "f.txt" 85 "m" "n" (some .metrics)).2.catalog = [] := by
  refine ⟨rfl, by decide, rfl⟩

/-- Witness for `ingest_failure_amended` at a concrete input with the
metric step failing. -/
theorem ingest_failure_amended_witness :
    (KnowledgeBaseService.add_document (fun t => [t]) ⟨[], []⟩ ".txt" kbSampleText
      "d1" "f.txt" 85 "m" "n" (some .metrics)).2.catalog = (⟨[], []⟩ : KBState).catalog ∧
      ((some IngestStep.metrics = some .copyFile ∨ some IngestStep.metrics = some .chunkSplit ∨
          some IngestStep.metrics = some .insertVectors) →
        (KnowledgeBaseService.add_document (fun t => [t]) ⟨[], []⟩ ".txt" kbSampleText
          "d1" "f.txt" 85 "m" "n" (some .metrics)).2 = ⟨[], []⟩) ∧
      (kbSampleText.length < 50 →
        (KnowledgeBaseService.add_document (fun t => [t]) ⟨[], []⟩ ".txt" kbSampleText
          "d1" "f.txt" 85 "m" "n" (some .metrics)).2 = ⟨[], []⟩) ∧
      (∀ dt : String, (some IngestStep.metrics = some .metrics ∨ some IngestStep.metrics = some .catalogWrite) →
        KnowledgeBaseService.docTypeOf ".txt" = some dt →
        ¬(kbSampleText = "" ∨ kbSampleText.length < 50) →
        (KnowledgeBaseService.add_document (fun t => [t]) ⟨[], []⟩ ".txt" kbSampleText
          "d1" "f.txt" 85 "m" "n" (some .metrics)).2.vectors =
          (⟨[], []⟩ : KBState).vectors ++
            KnowledgeBaseService.chunk_entries ((fun t => [t]) kbSampleText) "d1" "f.txt" dt) :=
  ingest_failure_amended (fun t => [t]) ⟨[], []⟩ ".txt" kbSampleText "d1" "f.txt" 85 "m" "n"
    (some .metrics) (by decide)

/-- C6: constructing a Lead fails validation exactly when the integer score
is outside [0,100]; inside [0,100] construction always succeeds, whatever
the other fields hold. -/
theorem lead_score_validation (r : RawLead) :
    (Lead.make r).isOk ↔ (0 ≤ r.lead_score ∧ r.lead_score ≤ 100) := by
  unfold Lead.make InputValidator.validate_score
  by_cases h : 0 ≤ r.lead_score ∧ r.lead_score ≤ 100 <;>
    simp [h, Except.isOk, Except.toBool]

/-- A raw Lead whose company name contains an ampersand; sanitization turns
it into `"A&amp;B"` at construction, and a second pass re-escapes it. -/
def rawAmpLead : RawLead :=
  {
    url := "https://a.com"
    company_name := "A&B"
    lead_score := 50
    industry := "SaaS"
    score_rationale := ""
    key_insights := ""
    fit_analysis := ""
    personalized_email := ""
    sms_draft := ""
    recommended_action := "Qualified"
    scraped_content := ""
    metadata := []
    timestamp := "2024-01-01T00:00:00"
    id := none
  }

/-- Lemma: `escapeChar` never emits a `<` character: the escapable characters map
to entity references and any other character is kept unchanged and is not
`<` itself. -/
theorem escapeChar_ne_lt (c : Char) : '<' ∉ InputValidator.escapeChar c := by
  unfold InputValidator.escapeChar
  split_ifs with h1 h2 h3 h4 h5
  · decide
  · decide
  · decide
  · decide
  · decide
  · simp only [List.mem_singleton]
    exact fun h => h2 h.symm

/-- Sanitized text is bounded by the (nonzero) max length, contains no `<`
and no null byte. -/
theorem sanitize_text_props (s : String) (m : Nat) (hm : m ≠ 0) :
    (InputValidator.sanitize_text s (some m)).toList.length ≤ m ∧
      '<' ∉ (InputValidator.sanitize_text s (some m)).toList ∧
      InputValidator.nullChar ∉ (InputValidator.sanitize_text s (some m)).toList := by
  unfold InputValidator.sanitize_text
  by_cases hs : s = ""
  · simp [hs]
  · simp only [hs, if_false]
    set noNull := (s.toList.flatMap InputValidator.escapeChar).filter
      (fun c => c ≠ InputValidator.nullChar) with hnn
    have hsub : ∀ x : Char,
        x ∈ (if m ≠ 0 && noNull.length > m then noNull.take m else noNull) →
        x ∈ noNull := by
      intro x hx
      split at hx
      · exact List.mem_of_mem_take hx
      · exact hx
    refine ⟨?_, ?_, ?_⟩
    · show (if m ≠ 0 && noNull.length > m then noNull.take m else noNull).length ≤ m
      split
      · simp [List.length_take_le m noNull]
      · rename_i hcond
        have hle : ¬ noNull.length > m := by
          intro hgt
          exact hcond (by simp [hm, hgt])
        omega
    · intro hmem
      have h1 := hsub _ hmem
      have h2 := List.mem_of_mem_filter h1
      rw [List.mem_flatMap] at h2
      obtain ⟨c, _, hc⟩ := h2
      exact escapeChar_ne_lt c hc
    · intro hmem
      have h1 := hsub _ hmem
      have h2 := List.of_mem_filter h1
      simp at h2

/-- C10: every successfully constructed Lead — in particular every Lead
deserialized from storage via `Lead.from_dict`, which re-runs the same
constructor — carries the sanitized forms of its `company_name` and
`industry`: HTML-escaped, null-byte-free, truncated to 200 and 100
characters respectively. -/
theorem lead_sanitization_invariant (r : RawLead) (l : Lead)
    (h : Lead.from_dict r = .ok l) :
    l.company_name = InputValidator.sanitize_text r.company_name (some 200) ∧
      l.industry = InputValidator.sanitize_text r.industry (some 100) ∧
      l.company_name.toList.length ≤ 200 ∧
      '<' ∉ l.company_name.toList ∧
      InputValidator.nullChar ∉ l.company_name.toList ∧
      l.industry.toList.length ≤ 100 ∧
      '<' ∉ l.industry.toList ∧
      InputValidator.nullChar ∉ l.industry.toList := by
  unfold Lead.from_dict Lead.make InputValidator.validate_score at h
  by_cases hs : 0 ≤ r.lead_score ∧ r.lead_score ≤ 100
  · simp [hs] at h
    subst h
    have hc := sanitize_text_props r.company_name 200 (by omega)
    have hi := sanitize_text_props r.industry 100 (by omega)
    exact ⟨rfl, rfl, hc.1, hc.2.1, hc.2.2, hi.1, hi.2.1, hi.2.2⟩
  · simp [hs] at h

/-- Raw Lead with a `<`, a null byte and a `>` in its text fields, used to
witness `lead_sanitization_invariant`. -/
def rawEvilLead : RawLead :=
  { rawAmpLead with company_name := "<Evil\x00Corp", industry := "Ads>" }

/-- The Lead that construction from `rawEvilLead` produces. -/
def evilLead : Lead :=
  {
    url := "https://a.com"
    company_name := "&lt;EvilCorp"
    lead_score := 50
    industry := "Ads&gt;"
    score_rationale := ""
    key_insights := ""
    fit_analysis := ""
    personalized_email := ""
    sms_draft := ""
    recommended_action := "Qualified"
    scraped_content := ""
    metadata := []
    timestamp := "2024-01-01T00:00:00"
    id := none
  }

/-- Witness for `lead_sanitization_invariant` at a concrete input. -/
theorem lead_sanitization_invariant_witness :
    evilLead.company_name = InputValidator.sanitize_text rawEvilLead.company_name (some 200) ∧
      evilLead.industry = InputValidator.sanitize_text rawEvilLead.industry (some 100) ∧
      evilLead.company_name.toList.length ≤ 200 ∧
      '<' ∉ evilLead.company_name.toList ∧
      InputValidator.nullChar ∉ evilLead.company_name.toList ∧
      evilLead.industry.toList.length ≤ 100 ∧
      '<' ∉ evilLead.industry.toList ∧
      InputValidator.nullChar ∉ evilLead.industry.toList :=
  lead_sanitization_invariant rawEvilLead evilLead rfl

/-- C3 counterexample: the Lead half of the round-trip claim fails. For the
concrete Lead built from `rawAmpLead` (company name `"A&B"`, stored as
`"A&amp;B"`), `Lead.from_dict (Lead.to_dict l)` re-escapes the ampersand to
`"A&amp;amp;B"`, so the round trip does not restore the Lead unchanged. -/
theorem lead_roundtrip_fails_on_ampersand :
    (Lead.make rawAmpLead).isOk = true ∧
      (Lead.make rawAmpLead).bind (fun l => Lead.from_dict (Lead.to_dict l)) ≠
        Lead.make rawAmpLead := by
  constructor
  · rfl
  · intro h
    have h2 := congrArg (fun e => (Except.toOption e).map Lead.company_name) h
    simp only at h2
    exact absurd h2 (by decide)

/-- C3 amended: `Document.from_dict (Document.to_dict d) = d` for every
Document with a nonempty filename (every ingested Document has one), and
`Lead.from_dict (Lead.to_dict l) = l` holds for a Lead exactly under the
further condition that its `company_name` and `industry` are fixed points
of sanitization (no HTML-escapable characters) — not for every Lead. -/
theorem roundtrip_amended (d : Document) (l : Lead)
    (hd : d.filename ≠ "")
    (hs : 0 ≤ l.lead_score ∧ l.lead_score ≤ 100)
    (ha : l.recommended_action ∈ Lead.validActions)
    (hc : InputValidator.sanitize_text l.company_name (some 200) = l.company_name)
    (hi : InputValidator.sanitize_text l.industry (some 100) = l.industry) :
    Document.from_dict (Document.to_dict d) = .ok d ∧
      Lead.from_dict (Lead.to_dict l) = .ok l := by
  constructor
  · unfold Document.from_dict Document.make Document.to_dict
    simp [hd]
  · unfold Lead.from_dict Lead.make Lead.to_dict InputValidator.validate_score
    simp [hs, ha, hc, hi]

/-- Witness for `roundtrip_amended` at concrete inputs. -/
theorem roundtrip_amended_witness :
    Document.from_dict (Document.to_dict plainDocument) = .ok plainDocument ∧
      Lead.from_dict (Lead.to_dict plainLead) = .ok plainLead :=
  roundtrip_amended plainDocument plainLead (by decide) (by decide) (by decide)
    (by decide) (by decide)

namespace Re

/-- A backtracking matcher: a pattern maps an input character list to the
list of possible remaining suffixes after a match. A full regex match
(`re.match` with the trailing `$` of `URL_PATTERN`) succeeds when the
empty suffix is reachable. -/
abbrev M := List Char → List (List Char)

/-- ASCII lowercasing, for `re.IGNORECASE` semantics. -/
def lowerCh (c : Char) : Char :=
  if 'A' ≤ c && c ≤ 'Z' then Char.ofNat (c.toNat + 32) else c

/-- Match one character, case-insensitively. -/
def chCI (c : Char) : M := fun s =>
  match s with
  | [] => []
  | x :: rest => if lowerCh x = lowerCh c then [rest] else []

/-- Match one character from a class. -/
def cls (p : Char → Bool) : M := fun s =>
  match s with
  | [] => []
  | x :: rest => if p x then [rest] else []

/-- The empty pattern. -/
def epsm : M := fun s => [s]

/-- Sequencing. -/
def seqm (a b : M) : M := fun s => (a s).flatMap b

/-- Alternation. -/
def altm (a b : M) : M := fun s => a s ++ b s

/-- Pattern `?` (zero or one). -/
def optm (a : M) : M := altm a epsm

/-- Pattern `{0,n}` (at most `n` repetitions). -/
def repUpTo (a : M) : Nat → M
  | 0 => epsm
  | n + 1 => altm (seqm a (repUpTo a n)) epsm

/-- Pattern `+` with explicit fuel (any pattern used with it consumes at least one
character, so fuel = input length suffices). -/
def rep1 (a : M) : Nat → M
  | 0 => fun _ => []
  | n + 1 => seqm a (optm (rep1 a n))

/-- A case-insensitive literal. -/
def litCI (str : String) : M :=
  str.toList.foldr (fun c acc => seqm (chCI c) acc) epsm

/-- Class `[A-Za-z]` (the pattern is compiled with `re.IGNORECASE`). -/
def isAlphaCh (c : Char) : Bool := ('A' ≤ c && c ≤ 'Z') || ('a' ≤ c && c ≤ 'z')

/-- Class `\\d`. -/
def isDigitCh (c : Char) : Bool := '0' ≤ c && c ≤ '9'

/-- Class `[A-Z0-9]` under IGNORECASE. -/
def isAlnumCh (c : Char) : Bool := isAlphaCh c || isDigitCh c

/-- Class `[A-Z0-9-]` under IGNORECASE. -/
def isAlnumHyphCh (c : Char) : Bool := isAlnumCh c || c = '-'

/-- Class `\\s` (ASCII whitespace). -/
def isSpaceCh (c : Char) : Bool :=
  c = ' ' || c = Char.ofNat 9 || c = Char.ofNat 10 || c = Char.ofNat 13 ||
    c = Char.ofNat 11 || c = Char.ofNat 12

/-- Class `\\w` (ASCII word character). -/
def isWordCh (c : Char) : Bool := isAlnumCh c || c = '_'

end Re

namespace InputValidator

/-- One domain label: `[A-Z0-9](?:[A-Z0-9-]{0,61}[A-Z0-9])?`. -/
def urlLabel : Re.M :=
  Re.seqm (Re.cls Re.isAlnumCh)
    (Re.optm (Re.seqm (Re.repUpTo (Re.cls Re.isAlnumHyphCh) 61) (Re.cls Re.isAlnumCh)))

/-- The TLD: `[A-Z]{2,6}`. -/
def urlTld : Re.M :=
  Re.seqm (Re.cls Re.isAlphaCh)
    (Re.seqm (Re.cls Re.isAlphaCh) (Re.repUpTo (Re.cls Re.isAlphaCh) 4))

/-- The domain alternative: `(?:LABEL\\.)+[A-Z]{2,6}\\.?`. -/
def urlDomain (fuel : Nat) : Re.M :=
  Re.seqm (Re.rep1 (Re.seqm urlLabel (Re.chCI '.')) fuel)
    (Re.seqm urlTld (Re.optm (Re.chCI '.')))

/-- One IP octet pattern: `\\d{1,3}` (no range check, as in the source). -/
def ipOctet : Re.M :=
  Re.seqm (Re.cls Re.isDigitCh) (Re.repUpTo (Re.cls Re.isDigitCh) 2)

/-- The IP alternative: `\\d{1,3}\\.\\d{1,3}\\.\\d{1,3}\\.\\d{1,3}`. -/
def urlIp : Re.M :=
  Re.seqm ipOctet (Re.seqm (Re.chCI '.') (Re.seqm ipOctet
    (Re.seqm (Re.chCI '.') (Re.seqm ipOctet (Re.seqm (Re.chCI '.') ipOctet)))))

/-- Pattern `(?::\\d+)?`. -/
def urlPort (fuel : Nat) : Re.M :=
  Re.optm (Re.seqm (Re.chCI ':') (Re.rep1 (Re.cls Re.isDigitCh) fuel))

/-- Pattern `(?:/?|[/?]\\S+)$`. -/
def urlTail (fuel : Nat) : Re.M :=
  Re.altm (Re.optm (Re.chCI '/'))
    (Re.seqm (Re.cls (fun c => c = '/' || c = '?'))
      (Re.rep1 (Re.cls (fun c => !(Re.isSpaceCh c))) fuel))

/-- Model of `InputValidator.URL_PATTERN` (validators.py:25-32) as a matcher:
`^https?://(domain|localhost|ip)(:port)?(/?|[/?]\\S+)$`, IGNORECASE. -/
def urlRegex (fuel : Nat) : Re.M :=
  Re.seqm (Re.litCI "http") (Re.seqm (Re.optm (Re.chCI 's')) (Re.seqm (Re.litCI "://")
    (Re.seqm (Re.altm (urlDomain fuel) (Re.altm (Re.litCI "localhost") urlIp))
      (Re.seqm (urlPort fuel) (urlTail fuel)))))

/-- Model of `URL_PATTERN.match(url)` with the pattern-final `$`: a full match. -/
def URL_PATTERN_match (s : String) : Bool :=
  let l := s.toList
  (urlRegex (l.length + 1) l).contains []

/-- List-level prefix test (pattern first). -/
def startsWithL (pat : List Char) : List Char → Bool
  | [] => pat.isEmpty
  | c :: cs =>
    match pat with
    | [] => true
    | p :: ps => p = c && startsWithL ps cs

/-- List-level substring containment. -/
def containsSeg (pat : List Char) : List Char → Bool
  | [] => pat.isEmpty
  | c :: cs => startsWithL pat (c :: cs) || containsSeg pat cs

/-- Does `on\\w+\\s*=` match starting at this position (over a lowercased
list)? Maximal munch of `\\w+` is equivalent to the regex here because a
word character is neither whitespace nor `=`. -/
def onEvtAt : List Char → Bool
  | 'o' :: 'n' :: rest =>
    decide (rest.takeWhile Re.isWordCh ≠ []) &&
      (((rest.dropWhile Re.isWordCh).dropWhile Re.isSpaceCh).head? = some '=')
  | _ => false

/-- Does `on\\w+\\s*=` match anywhere? -/
def onEvtAnywhere : List Char → Bool
  | [] => false
  | c :: cs => onEvtAt (c :: cs) || onEvtAnywhere cs

/-- Model of `DANGEROUS_PATTERNS` (validators.py:38-44): `<script`, `javascript:`,
`on\\w+\\s*=`, `<iframe`, all case-insensitive searches. -/
def containsDangerous (url : String) : Bool :=
  let l := url.toList.map Re.lowerCh
  containsSeg "<script".toList l || containsSeg "javascript:".toList l ||
    onEvtAnywhere l || containsSeg "<iframe".toList l

/-- Model of `str.startswith(pre)`, computed on character lists (the built-in
`String.startsWith` does not reduce by kernel evaluation). -/
def strStartsWith (s pre : String) : Bool := startsWithL pre.toList s.toList

/-- Python `str.strip()` over ASCII whitespace, computed on character
lists. -/
def pyStrip (s : String) : String :=
  String.mk (((s.toList.dropWhile Re.isSpaceCh).reverse.dropWhile Re.isSpaceCh).reverse)

/-- The segment after the last occurrence of `sep` (the whole list when
`sep` is absent). -/
def afterLastChar (sep : Char) (l : List Char) : List Char :=
  (l.reverse.takeWhile (fun c => c ≠ sep)).reverse

/-- The segment before the first occurrence of `sep` (the whole list when
`sep` is absent). -/
def beforeFirstChar (sep : Char) (l : List Char) : List Char :=
  l.takeWhile (fun c => c ≠ sep)

/-- Model of `urlparse(url).hostname`: the netloc (up to the first `/`, `?` or `#`
after the scheme), the part after the last `@`, before the first `:`,
lowercased. -/
def hostnameOf (url : String) : String :=
  let rest :=
    if strStartsWith url "https://" then url.toList.drop 8
    else if strStartsWith url "http://" then url.toList.drop 7
    else url.toList
  let netloc := rest.takeWhile (fun c => c ≠ '/' && c ≠ '?' && c ≠ '#')
  let host := beforeFirstChar ':' (afterLastChar '@' netloc)
  String.mk (host.map Re.lowerCh)

/-- The blocked hosts of `validate_url` (validators.py:88). -/
def blocked_hosts : List String := ["localhost", "127.0.0.1", "0.0.0.0"]

/-- Model of `InputValidator.validate_url` (validators.py:46-97): empty rejection,
trim, `https://` prepended when no scheme, `URL_PATTERN` full match,
optional HTTPS requirement, dangerous-pattern rejection, blocked-host
rejection; on success returns the cleaned URL. -/
def validate_url (url : String) (requireHttps : Bool) : Bool × String :=
  if url = "" then (false, "URL is empty or invalid type")
  else
    let url1 := pyStrip url
    let url2 :=
      if strStartsWith url1 "http://" || strStartsWith url1 "https://" then url1
      else "https://" ++ url1
    if ¬ URL_PATTERN_match url2 then (false, "Invalid URL format")
    else
      let scheme := if strStartsWith url2 "https://" then "https" else "http"
      if requireHttps && scheme ≠ "https" then (false, "Only HTTPS URLs are allowed")
      else if containsDangerous url2 then (false, "URL contains potentially dangerous content")
      else if blocked_hosts.contains (hostnameOf url2) then (false, "Localhost URLs are not allowed")
      else (true, url2)

end InputValidator

/-- Split a character list at every occurrence of `sep` (like
`str.split(sep)` for a one-character separator). -/
def splitOnChar (sep : Char) : List Char → List (List Char)
  | [] => [[]]
  | c :: cs =>
    if c = sep then [] :: splitOnChar sep cs
    else
      match splitOnChar sep cs with
      | h :: t => (c :: h) :: t
      | [] => [[c]]

/-- Decimal value of a digit list. -/
def digitsVal (l : List Char) : Nat :=
  l.foldl (fun acc c => acc * 10 + (c.toNat - '0'.toNat)) 0

/-- An IPv4 loopback address in the claim sense: `127.b.c.d` with numeric
octets at most 255. -/
def isLoopbackIPv4 (h : String) : Bool :=
  match splitOnChar '.' h.toList with
  | [a, b, c, d] =>
    a = "127".toList && [b, c, d].all (fun s =>
      decide (s ≠ []) && s.all Re.isDigitCh && digitsVal s ≤ 255)
  | _ => false

example : InputValidator.URL_PATTERN_match "https://example.com" = true := by decide

example : InputValidator.URL_PATTERN_match "https://not a url" = false := by decide

/-- C8 counterexample: the bare loopback address `127.0.0.2` (no scheme) is
normalized to `https://127.0.0.2`, matches the URL grammar, and is
ACCEPTED by `validate_url` even though its host is a loopback address —
only the three literal hosts `localhost`, `127.0.0.1` and `0.0.0.0` are
blocked, so "URLs whose host is ... a loopback address are rejected" is
false. -/
theorem validate_url_loopback_counterexample :
    (InputValidator.validate_url "127.0.0.2" false).1 = true ∧
      isLoopbackIPv4 (InputValidator.hostnameOf
        ((InputValidator.validate_url "127.0.0.2" false).2)) = true ∧
      InputValidator.hostnameOf ((InputValidator.validate_url "127.0.0.2" false).2) ≠
        "localhost" := by
  exact ⟨by decide, by decide, by decide⟩

/-- C8 amended: for every nonempty, already-trimmed URL string lacking a
scheme, `validate_url` prepends `https://` and accepts exactly when the
normalized string matches `URL_PATTERN` AND contains none of the dangerous
substrings (`<script`, `javascript:`, `on...=`, `<iframe`) AND its host is
not one of the three literal blocked hosts `localhost`, `127.0.0.1`,
`0.0.0.0` (not every loopback address); on acceptance the cleaned URL is
the normalized string. All these checks happen inside `validate_url`,
before any external call. -/
theorem validate_url_no_scheme_amended (u : String)
    (hne : u ≠ "")
    (htrim : InputValidator.pyStrip u = u)
    (hs : (InputValidator.strStartsWith u "http://" ||
      InputValidator.strStartsWith u "https://") = false) :
    (InputValidator.validate_url u false).1 =
      (InputValidator.URL_PATTERN_match ("https://" ++ u) &&
        !InputValidator.containsDangerous ("https://" ++ u) &&
        !(InputValidator.blocked_hosts.contains
          (InputValidator.hostnameOf ("https://" ++ u)))) ∧
      ((InputValidator.validate_url u false).1 = true →
        (InputValidator.validate_url u false).2 = "https://" ++ u) := by
  unfold InputValidator.validate_url
  rw [if_neg hne]
  simp only [htrim, hs, Bool.false_eq_true, if_false, Bool.false_and]
  by_cases hp : InputValidator.URL_PATTERN_match ("https://" ++ u) <;>
    by_cases hd : InputValidator.containsDangerous ("https://" ++ u) <;>
    by_cases hb : InputValidator.hostnameOf ("https://" ++ u) ∈
      InputValidator.blocked_hosts <;>
    simp [hp, hd, hb]

/-- Witness for `validate_url_no_scheme_amended` at `"example.com"`. -/
theorem validate_url_no_scheme_amended_witness :
    (InputValidator.validate_url "example.com" false).1 =
      (InputValidator.URL_PATTERN_match ("https://" ++ "example.com") &&
        !InputValidator.containsDangerous ("https://" ++ "example.com") &&
        !(InputValidator.blocked_hosts.contains
          (InputValidator.hostnameOf ("https://" ++ "example.com")))) ∧
      ((InputValidator.validate_url "example.com" false).1 = true →
        (InputValidator.validate_url "example.com" false).2 = "https://" ++ "example.com") :=
  validate_url_no_scheme_amended "example.com" (by decide) (by decide) (by decide)

namespace MockDataGenerator

/-- The mock company table (mock_data.py:27-33): (name, product, industries). -/
def companies : List (String × String × String) :=
  [("TechFlow Solutions", "Cloud-based workflow automation", "B2B SaaS, Enterprise Software"),
   ("DataSync Pro", "Real-time data integration platform", "Data Analytics, API Integration"),
   ("CustomerFirst AI", "AI-powered customer success management", "AI/ML, Customer Service"),
   ("SecureVault Systems", "Enterprise security and compliance", "Cybersecurity, Compliance"),
   ("GrowthMetrics", "Marketing analytics and attribution", "Marketing Technology, Analytics")]

/-- The mock industry table (mock_data.py:144-153). -/
def industries : List String :=
  ["B2B SaaS", "Enterprise Software", "Data Analytics", "Cybersecurity",
   "Marketing Technology", "Cloud Infrastructure", "AI/Machine Learning", "Customer Success"]

/-- The mock fit-reason table (mock_data.py:161-167). -/
def fit_reasons : List String :=
  ["Strong alignment with our ICP in terms of company size and technology stack",
   "Excellent fit - they serve similar customer segments and face challenges we solve",
   "Good potential - their growth stage matches our ideal customer profile",
   "Moderate fit - some alignment but may need further qualification",
   "Limited alignment with our ICP, but worth exploring specific use cases"]

/-- Model of `MockDataGenerator.get_mock_scraped_content` (mock_data.py:13-82).
`h url` models `int(hashlib.md5(url.encode()).hexdigest()[:8], 16)` — a
pure function of the URL, abstracted as a parameter. -/
def get_mock_scraped_content (h : String → Nat) (url : String) : String :=
  let urlHash := h url
  let c := companies.getD (urlHash % companies.length) ("", "", "")
  let company := c.1
  let product := c.2.1
  let industry := c.2.2
  let employeeCount := 20 + urlHash % 180
  let foundedYear := 2015 + urlHash % 10
  "# " ++ company ++ "\n\n## About Us\nWelcome to " ++ company ++
    "! We are a leading provider of " ++ product.toLower ++ ".\nFounded in " ++
    toString foundedYear ++
    ", we've been serving businesses across Europe and North America.\n\n## Our Solution\nOur platform offers:\n- " ++
    product ++
    "\n- Seamless integration with major business tools\n- Enterprise-grade security and compliance\n- 24/7 customer support\n- Scalable infrastructure for growing businesses\n\n## Industries We Serve\n" ++
    industry ++ "\n\n## Company Information\n- **Team Size**: " ++ toString employeeCount ++
    "+ employees\n- **Founded**: " ++ toString foundedYear ++
    "\n- **Headquarters**: Copenhagen, Denmark\n- **Locations**: Denmark, UK, Germany, USA\n\n## Our Clients\nWe work with Fortune 500 companies, mid-sized enterprises, and fast-growing startups.\nOur clients value our commitment to innovation, security, and customer success.\n\n## Technology Stack\nBuilt with modern technologies:\n- Cloud-native architecture (AWS/Azure)\n- AI and machine learning capabilities\n- RESTful APIs and webhooks\n- SOC 2 Type II certified\n- GDPR compliant\n\n## Contact Information\nEmail: contact@" ++
    (company.toLower.replace " " "") ++ ".com\nPhone: +45 " ++ toString (20 + urlHash % 80) ++
    " " ++ toString (10 + urlHash % 90) ++ " " ++ toString (1000 + urlHash % 9000) ++
    "\nWebsite: " ++ url ++
    "\n\n## Recent News\nWe recently closed a Series B funding round and expanded our operations to the US market.\nOur platform now serves over " ++
    toString (100 + urlHash % 400) ++ " enterprise customers worldwide.\n"

/-- Model of `MockDataGenerator.get_mock_metadata` (mock_data.py:84-115). -/
def get_mock_metadata (h : String → Nat) (url : String) : List (String × JVal) :=
  let urlHash := h url
  let companiesShort := ["TechFlow Solutions", "DataSync Pro", "CustomerFirst AI",
    "SecureVault Systems", "GrowthMetrics"]
  let company := companiesShort.getD (urlHash % companiesShort.length) ""
  [("title", .s (company ++ " - Enterprise Software Solutions")),
   ("description", .s ("Leading provider of B2B software solutions for modern enterprises. " ++
     company ++ " helps businesses automate and scale their operations.")),
   ("language", .s "en"),
   ("url", .s url),
   ("statusCode", .n 200),
   ("ogTitle", .s company),
   ("ogDescription", .s "Enterprise software solutions for growing businesses")]

/-- The structured mock AI analysis result (mock_data.py:169-190); the mock
never produces an `error` key. -/
structure AiResult where
  lead_score : Int
  score_rationale : String
  company_name : String
  industry : String
  key_insights : String
  fit_analysis : String
  personalized_email : String
  sms_draft : String
  recommended_action : String
deriving DecidableEq, Repr

/-- Model of `MockDataGenerator.get_mock_lead_analysis` (mock_data.py:117-190):
extracts the company name from the first markdown `# ` heading of the
content (default "Test Company"), scores `45 + hash % 50`, and fills the
narrative fields; the user profile is ignored by the mock. -/
def get_mock_lead_analysis (h : String → Nat) (content : String)
    (profile : List (String × JVal)) (url : String) : AiResult :=
  let _ := profile
  let urlHash := h url
  let company_name :=
    match (content.splitOn "\n").find? (fun l => InputValidator.strStartsWith l "# ") with
    | some line => InputValidator.pyStrip (line.replace "# " "")
    | none => "Test Company"
  let base_score : Nat := 45 + urlHash % 50
  let industry := industries.getD (urlHash % industries.length) ""
  let is_qualified := decide (70 ≤ base_score)
  let action :=
    if is_qualified then "Qualified"
    else if 60 ≤ base_score then "Further Research" else "Disqualified"
  let fitReason := fit_reasons.getD (urlHash % fit_reasons.length) ""
  { lead_score := (base_score : Int)
    score_rationale := "Based on the website analysis, " ++ company_name ++ " scores " ++
      toString base_score ++ "/100. They operate in " ++ industry ++
      " which aligns with our target market. " ++ fitReason ++
      ". The company demonstrates strong digital presence and appears to have the budget for enterprise solutions."
    company_name := company_name
    industry := industry
    key_insights := "• " ++ company_name ++
      " focuses on enterprise B2B solutions\n• Strong emphasis on innovation and modern technology stack\n• Active in the " ++
      industry ++
      " space with proven customer base\n• Website demonstrates professional brand positioning\n• Clear value proposition aligned with market needs"
    fit_analysis := "The company shows " ++ (if is_qualified then "strong" else "moderate") ++
      " alignment with our ICP. They operate in the " ++ industry ++
      " sector and demonstrate characteristics of companies that benefit from our solution. " ++
      (if is_qualified then
        "Their technology-forward approach and enterprise focus make them an ideal prospect."
      else "Further research needed to validate budget authority and immediate need.")
    personalized_email := "Subject: " ++ company_name ++ " + [Your Company]: Streamlining " ++
      industry ++ " Operations\n\nHi [Name],\n\nI came across " ++ company_name ++
      " and was impressed by your work in " ++ industry ++
      ". \n\nMany companies in your space face challenges with [relevant pain point]. We've helped similar organizations achieve [specific outcome].\n\nWould you be open to a brief 15-minute call to explore if there's a fit?\n\nBest regards,\n[Your Name]"
    sms_draft := "Hi! Saw " ++ company_name ++ "'s work in " ++ industry ++
      ". We help similar companies [benefit]. Quick chat?"
    recommended_action := action }

end MockDataGenerator

namespace FirecrawlClient

/-- Model of `FirecrawlClient.scrape_url` in test mode (firecrawl.py:125-152):
validates the URL first; on success returns the deterministic mock content
and metadata for the cleaned URL. -/
def scrape_url (h : String → Nat) (url : String) : Bool × String × List (String × JVal) :=
  let v := InputValidator.validate_url url false
  if v.1 = false then (false, "Invalid URL: " ++ v.2, [])
  else (true, MockDataGenerator.get_mock_scraped_content h v.2,
    MockDataGenerator.get_mock_metadata h v.2)

end FirecrawlClient

namespace OpenAIClient

/-- Model of `OpenAIClient.analyze_lead` in test mode (openai_client.py:50-70):
returns the deterministic mock analysis. -/
def analyze_lead (h : String → Nat) (content : String) (profile : List (String × JVal))
    (url : String) : MockDataGenerator.AiResult :=
  MockDataGenerator.get_mock_lead_analysis h content profile url

end OpenAIClient

/-- Model of `Lead.from_ai_analysis` (lead.py:115-146): builds the raw fields from
the AI result (content truncated to 500 characters) and runs the
constructor; `now` models the dataclass timestamp default factory
`datetime.now().isoformat()`. -/
def Lead.from_ai_analysis (url : String) (ai : MockDataGenerator.AiResult)
    (content : String) (md : List (String × JVal)) (now : String) : Except String Lead :=
  Lead.make
    { url := url
      company_name := ai.company_name
      lead_score := ai.lead_score
      industry := ai.industry
      score_rationale := ai.score_rationale
      key_insights := ai.key_insights
      fit_analysis := ai.fit_analysis
      personalized_email := ai.personalized_email
      sms_draft := ai.sms_draft
      recommended_action := ai.recommended_action
      scraped_content := content.take 500
      metadata := md
      timestamp := now
      id := none }

namespace LeadAnalyzer

/-- Model of `LeadAnalyzer.analyze_single_url` with both clients in test mode and no
knowledge base (lead_analyzer.py:100-177): scrape (mock), then AI analysis
(mock), then Lead construction. Only the clock input `now` differs between
two runs. -/
def analyze_single_url_mock (h : String → Nat) (profile : List (String × JVal))
    (url now : String) : Except String Lead :=
  let r := FirecrawlClient.scrape_url h url
  if r.1 = false then .error ("Scraping failed: " ++ r.2.1)
  else
    Lead.from_ai_analysis url (OpenAIClient.analyze_lead h r.2.1 profile url) r.2.1 r.2.2 now

end LeadAnalyzer

/-- C5: mock mode is deterministic. The mock Content Fetcher and mock AI
Scorer are pure functions of the (hash of the) URL, so two runs on the
same URL return identical content, metadata and analysis; consequently two
runs of the full mock analysis pipeline — even at different clock times —
yield a Lead with the same `company_name` and the same `lead_score` (and
the same success/failure outcome). -/
theorem mock_mode_deterministic (h : String → Nat) (profile : List (String × JVal))
    (url t1 t2 : String) :
    (LeadAnalyzer.analyze_single_url_mock h profile url t1).toOption.map Lead.company_name =
      (LeadAnalyzer.analyze_single_url_mock h profile url t2).toOption.map Lead.company_name ∧
      (LeadAnalyzer.analyze_single_url_mock h profile url t1).toOption.map Lead.lead_score =
        (LeadAnalyzer.analyze_single_url_mock h profile url t2).toOption.map Lead.lead_score ∧
      ((LeadAnalyzer.analyze_single_url_mock h profile url t1).isOk ↔
        (LeadAnalyzer.analyze_single_url_mock h profile url t2).isOk) := by
  unfold LeadAnalyzer.analyze_single_url_mock
  by_cases hr : (FirecrawlClient.scrape_url h url).1 = false
  · simp [hr, Except.toOption, Except.isOk, Except.toBool]
  · simp only [hr, if_false]
    unfold Lead.from_ai_analysis Lead.make
    by_cases hsc : (InputValidator.validate_score
        (OpenAIClient.analyze_lead h (FirecrawlClient.scrape_url h url).2.1 profile url).lead_score).1 <;>
      simp [hsc, Except.toOption, Except.isOk, Except.toBool]

namespace Constants

/-- Model of `Constants.MAX_BULK_URLS` (config.py:130). -/
def MAX_BULK_URLS : Nat := 50

end Constants

/-- One per-URL entry of the bulk result list (lead_analyzer.py:231-236). -/
structure BulkResult where
  url : String
  success : Bool
  message : String
  lead_id : Option Int
deriving DecidableEq, Repr

namespace LeadAnalyzer

/-- Model of `LeadAnalyzer.analyze_and_save` (lead_analyzer.py:179-201), acting on
the loaded lead list. The single-URL analysis outcome (fetch + scoring +
Lead construction) is the external `outcome`; on success the lead is added
through `DataManager.add_lead`. -/
def analyze_and_save (outcome : String → Except String Lead) (leads : List Lead)
    (url now : String) : (Bool × String × Option Int) × List Lead :=
  match outcome url with
  | .error msg => ((false, msg, none), leads)
  | .ok lead =>
    let r := DataManager.add_lead leads lead now
    ((true, "Lead #" ++ toString r.1 ++ " saved successfully", some r.1), r.2)

/-- The per-URL loop of `analyze_bulk_urls` (lead_analyzer.py:226-240):
strictly in input order, one result entry per URL, never aborting on an
individual failure (the fixed inter-request `time.sleep(delay)` has no
effect on results or store). -/
def analyze_bulk_step (outcome : String → Except String Lead) (now : String) :
    List Lead → List String → List BulkResult × List Lead
  | leads, [] => ([], leads)
  | leads, url :: rest =>
    let r := analyze_and_save outcome leads url now
    let rs := analyze_bulk_step outcome now r.2 rest
    ({ url := url, success := r.1.1, message := r.1.2.1, lead_id := r.1.2.2 } :: rs.1, rs.2)

/-- Model of `LeadAnalyzer.analyze_bulk_urls` (lead_analyzer.py:203-245): caps the
batch at `MAX_BULK_URLS` (`urls[:50]`), then runs the loop. -/
def analyze_bulk_urls (outcome : String → Except String Lead) (leads : List Lead)
    (urls : List String) (now : String) : List BulkResult × List Lead :=
  analyze_bulk_step outcome now leads (urls.take Constants.MAX_BULK_URLS)

end LeadAnalyzer

/-- Helper: the bulk loop emits one entry per URL, in order, with success
mirroring the per-URL outcome, and appends exactly the successful leads to
the store. -/
theorem analyze_bulk_step_spec (outcome : String → Except String Lead) (now : String) :
    ∀ (us : List String) (leads : List Lead),
      (LeadAnalyzer.analyze_bulk_step outcome now leads us).1.map
          (fun r => (r.url, r.success)) =
        us.map (fun u => (u, (outcome u).isOk)) ∧
      (LeadAnalyzer.analyze_bulk_step outcome now leads us).2.length =
        leads.length + (us.filter (fun u => (outcome u).isOk)).length := by
  intro us
  induction us with
  | nil => intro leads; simp [LeadAnalyzer.analyze_bulk_step]
  | cons u rest ih =>
    intro leads
    unfold LeadAnalyzer.analyze_bulk_step LeadAnalyzer.analyze_and_save
    cases ho : outcome u <;>
      simp [ho, ih, DataManager.add_lead, Except.isOk, Except.toBool] <;> omega

/-- C7: bulk analysis truncates the batch to the first `MAX_BULK_URLS` (50)
URLs, processes them one at a time in input order, produces exactly one
result entry per processed URL whose success flag mirrors that URL's
outcome (an individual failure never aborts the batch: later URLs still
get entries), and persists exactly the successful analyses to the store. -/
theorem bulk_order_cap_no_abort_persist (outcome : String → Except String Lead)
    (leads : List Lead) (urls : List String) (now : String) :
    (LeadAnalyzer.analyze_bulk_urls outcome leads urls now).1.map
        (fun r => (r.url, r.success)) =
      (urls.take Constants.MAX_BULK_URLS).map (fun u => (u, (outcome u).isOk)) ∧
      (LeadAnalyzer.analyze_bulk_urls outcome leads urls now).1.length =
        min Constants.MAX_BULK_URLS urls.length ∧
      (LeadAnalyzer.analyze_bulk_urls outcome leads urls now).2.length =
        leads.length +
          ((urls.take Constants.MAX_BULK_URLS).filter (fun u => (outcome u).isOk)).length := by
  have h := analyze_bulk_step_spec outcome now (urls.take Constants.MAX_BULK_URLS) leads
  refine ⟨h.1, ?_, h.2⟩
  have hlen := congrArg List.length h.1
  simp only [List.length_map] at hlen
  unfold LeadAnalyzer.analyze_bulk_urls
  rw [hlen, List.length_take]

/-- Sanity instance of the spec scenario: three URLs with the middle one
failing give three entries (middle failed, others succeeded) and exactly
two new leads in the store. -/
example :
    (LeadAnalyzer.analyze_bulk_urls
        (fun u => if u = "https://b.com" then .error "Scraping failed: boom" else .ok plainLead)
        [] ["https://a.com", "https://b.com", "https://c.com"] "t").1.map BulkResult.success =
      [true, false, true] ∧
      (LeadAnalyzer.analyze_bulk_urls
        (fun u => if u = "https://b.com" then .error "Scraping failed: boom" else .ok plainLead)
        [] ["https://a.com", "https://b.com", "https://c.com"] "t").2.length = 2 := by
  exact ⟨rfl, rfl⟩
